import Mathlib

/-!
Verification of the frame-indexed structure-access mixin (`HasStructure` in
`pyiron_atomistics/atomistics/structure/has_structure.py`) and the surface
builders (`StructureFactory.surface` / `StructureFactory.surface_hkl` in
`pyiron_atomistics/atomistics/structure/factory.py`).

The Python code is shallowly embedded: a producer object implementing the
mixin becomes a record of its three capability functions; fallible calls
return `Except PyErr`; numpy floats are idealised as rationals; the
external `ase.build` slab generators are abstracted as function
parameters, since only their output slab (and whether a `vacuum` keyword
was passed to them) matters to the builders' post-processing.
-/

namespace PyironSpec

/-- Error values raised by the embedded code.  The payload is the exact
message string built by the Python source. -/
inductive PyErr where
  | indexError (msg : String)
  | keyError (msg : String)
  | valueError (msg : String)
deriving DecidableEq, Repr

/-- A producer implementing the `HasStructure` mixin, seen through its
capability set: `_number_of_structures()` (a non-negative count),
`_get_structure(frame, wrap_atoms)` (only ever called with an in-range
frame, so it is total here), and the optional `_translate_frame` override
(`none` models the base class, whose `_translate_frame` raises
`NotImplementedError`). `α` is the structure type, `κ` the type of
non-integer frame keys. -/
structure Producer (α : Type) (κ : Type) where
  numberOfStructures : Nat
  getStructureImpl : Nat → Bool → α
  translateFrame : Option (κ → Int)

/-- The `frame` argument of `get_structure`: either a Python `int` or an
arbitrary non-integer key (`isinstance(frame, int)` distinguishes them). -/
inductive Frame (κ : Type) where
  | int (i : Int)
  | key (k : κ)

/-- The `KeyError` message of `HasStructure.get_structure` for a
non-integer frame with no translation available. -/
def keyErrMsg [ToString κ] (k : κ) : String :=
  "argument frame " ++ toString k ++
    " is not an integer and _translate_frame() not implemented!"

/-- The `IndexError` message of `HasStructure.get_structure`; `frame` is
the frame value after negative-index normalization, `n` the producer's
`number_of_structures`. -/
def idxErrMsg (frame : Int) (n : Int) : String :=
  "argument frame " ++ toString frame ++ " out of range [-" ++ toString n ++
    ", " ++ toString n ++ ")."

/-- Embeds `HasStructure.get_structure(frame, wrap_atoms, iteration_step)`.
Mirrors the source line by line: a non-`None` `iteration_step` replaces
`frame`; a non-integer frame goes through `_translate_frame` (KeyError if
not implemented); a negative frame has `number_of_structures` added once;
the result must lie in `[0, number_of_structures)` or an IndexError is
raised; otherwise `_get_structure` is called. -/
def get_structure [ToString κ] (p : Producer α κ) (frame : Frame κ)
    (wrap_atoms : Bool) (iteration_step : Option (Frame κ)) : Except PyErr α :=
  let frame := match iteration_step with
    | some s => s
    | none => frame
  let resolved : Except PyErr Int := match frame with
    | Frame.int i => Except.ok i
    | Frame.key k => match p.translateFrame with
      | some t => Except.ok (t k)
      | none => Except.error (PyErr.keyError (keyErrMsg k))
  match resolved with
  | Except.error e => Except.error e
  | Except.ok i =>
    let n : Int := p.numberOfStructures
    let i := if i < 0 then i + n else i
    if 0 ≤ i ∧ i < n then
      Except.ok (p.getStructureImpl i.toNat wrap_atoms)
    else
      Except.error (PyErr.indexError (idxErrMsg i n))

/-- Embeds `HasStructure.iter_structures(wrap_atoms)`: one `_get_structure` call
per index in `range(number_of_structures)`, materialised as a list (the
Python generator is lazy but finite). -/
def iter_structures (p : Producer α κ) (wrap_atoms : Bool) : List α :=
  (List.range p.numberOfStructures).map (fun i => p.getStructureImpl i wrap_atoms)

/-- Python's `sub in s` substring test, used to state what an error
message does or does not contain: `leadEq sub s` checks that `sub` is an
initial segment of `s`. -/
def leadEq : List Char → List Char → Bool
  | [], _ => true
  | _ :: _, [] => false
  | a :: as, b :: bs => a == b && leadEq as bs

/-- Search `sub` at every suffix of the second list. -/
def subSearch (sub : List Char) : List Char → Bool
  | [] => sub.isEmpty
  | c :: cs => leadEq sub (c :: cs) || subSearch sub cs

/-- Python's `sub in s` on strings. -/
def strHasSub (s sub : String) : Bool := subSearch sub.data s.data

/-- Example producer: two structures, the frame index itself is returned. -/
def pTwo : Producer Nat String :=
  { numberOfStructures := 2
    getStructureImpl := fun i _ => i
    translateFrame := none }

/-- Example producer with three structures (the spec's `N = 3` case). -/
def pThree : Producer Nat String :=
  { numberOfStructures := 3
    getStructureImpl := fun i _ => i
    translateFrame := none }

/-- Example producer with no structures (an unrun job). -/
def pZero : Producer Nat String :=
  { numberOfStructures := 0
    getStructureImpl := fun i _ => i
    translateFrame := none }

/-- Example `_translate_frame` override mapping a string key to its
length. -/
def strLen : String → Int := fun s => s.length

/-- Example producer supplying a `_translate_frame` override. -/
def pTrans : Producer Nat String :=
  { numberOfStructures := 2
    getStructureImpl := fun i _ => i
    translateFrame := some strLen }

/-- Atomic slab record: Cartesian positions, a 3×3 cell whose component
`i` is lattice vector `i` (a row of `surface.cell`), and per-axis
periodicity flags.  Coordinates are idealised as rationals. -/
structure Slab where
  positions : List (ℚ × ℚ × ℚ)
  cell : (ℚ × ℚ × ℚ) × (ℚ × ℚ × ℚ) × (ℚ × ℚ × ℚ)
  pbc : Bool × Bool × Bool
deriving DecidableEq, Repr

/-- Models `np.max` over a list of rationals (total function; all uses establish
nonemptiness, matching numpy's error on an empty array). -/
def listMax : List ℚ → ℚ
  | [] => 0
  | x :: xs => xs.foldl max x

/-- The z-coordinates `surface.positions[:, 2]`. -/
def zCoords (s : Slab) : List ℚ := s.positions.map (fun p => p.2.2)

/-- Models `np.max(surface.positions[:, 2])`. -/
def zMaxOf (s : Slab) : ℚ := listMax (zCoords s)

/-- The assignment `surface.cell[2, 2] = z`. -/
def setCellZZ (s : Slab) (z : ℚ) : Slab :=
  { s with cell := (s.cell.1, s.cell.2.1, (s.cell.2.2.1, s.cell.2.2.2.1, z)) }

/-- The third lattice vector `surface.cell[2]`. -/
def cellRow2 (s : Slab) : ℚ × ℚ × ℚ := s.cell.2.2

/-- The z-component of the third lattice vector, `surface.cell[2, 2]`. -/
def cellZZ (s : Slab) : ℚ := s.cell.2.2.2.2

/-- The update `surface.positions += v` (numpy broadcasts `v` over all rows). -/
def shiftAll (s : Slab) (v : ℚ × ℚ × ℚ) : Slab :=
  { s with positions :=
      s.positions.map (fun p => (p.1 + v.1, p.2.1 + v.2.1, p.2.2 + v.2.2)) }

/-- The `pbc` argument of the surface builders: Python `None`, a scalar
bool, or a per-axis triple. -/
inductive PbcArg where
  | noneArg
  | scalar (b : Bool)
  | triple (t : Bool × Bool × Bool)
deriving DecidableEq, Repr

/-- The normalization `if pbc is None: pbc = True` followed by the numpy-broadcast
assignment `surface.pbc = pbc`. -/
def resolvePbc : PbcArg → Bool × Bool × Bool
  | PbcArg.noneArg => (true, true, true)
  | PbcArg.scalar b => (b, b, b)
  | PbcArg.triple t => t

/-- The `__name__`s of the generator functions `StructureFactory.surface`
matches `surface_type` against (`ase_surf` is imported as `surface as
ase_surf`, so its `__name__` is `"surface"`). -/
def surfaceClassNames : List String :=
  ["add_adsorbate", "add_vacuum", "bcc100", "bcc110", "bcc111",
   "diamond100", "diamond111", "fcc100", "fcc110", "fcc111", "fcc211",
   "hcp0001", "hcp10m10", "mx2", "hcp0001_root", "fcc111_root",
   "bcc111_root", "root_surface", "root_surface_analysis", "surface"]

/-- Embeds `StructureFactory.surface(element, surface_type, size, vacuum, center,
pbc, **kwargs)` for a string `surface_type`.  The external `ase.build`
generators are abstracted by `gens`: `gens name vac` is the slab returned
by the generator named `name` for the fixed `element`/`size`/`kwargs` of
this call, where `vac` records whether (and with which value) the `vacuum`
keyword was passed to it.  The name loop plus the
`isinstance(surface_type, types.FunctionType)` test reduce, for string
input, to membership in the name table; `ase_to_pyiron` is the identity on
the data modelled here. -/
def surface (gens : String → Option ℚ → Slab) (surface_type : String)
    (vacuum : ℚ) (center : Bool) (pbc : PbcArg) : Except PyErr Slab :=
  if surfaceClassNames.contains surface_type then
    if center then
      let s := gens surface_type (some vacuum)
      Except.ok { s with pbc := resolvePbc pbc }
    else
      let s := gens surface_type none
      let z_max := zMaxOf s
      let s := setCellZZ s (z_max + vacuum)
      Except.ok { s with pbc := resolvePbc pbc }
  else
    Except.error (PyErr.valueError
      ("Surface type " ++ surface_type ++ " not recognized."))

/-- The centering shift `0.5 * surface.cell[2] - [0, 0, z_max / 2]` of
`surface_hkl`, with `row` the (already updated) third lattice vector. -/
def centerShift (row : ℚ × ℚ × ℚ) (z_max : ℚ) : ℚ × ℚ × ℚ :=
  (1/2 * row.1 - 0, 1/2 * row.2.1 - 0, 1/2 * row.2.2 - z_max / 2)

/-- Embeds `StructureFactory.surface_hkl(lattice, hkl, layers, vacuum, center,
pbc)`.  `ase_surf_out` abstracts the external call
`ase.build.surface(lattice, hkl, layers)`, which takes no vacuum argument
on this path; the builder then always rewrites `cell[2, 2]` and, only when
`center` is set, shifts all positions. -/
def surface_hkl (ase_surf_out : Slab) (vacuum : ℚ) (center : Bool)
    (pbc : PbcArg) : Slab :=
  let z_max := zMaxOf ase_surf_out
  let s := setCellZZ ase_surf_out (z_max + vacuum)
  let s := if center then shiftAll s (centerShift (cellRow2 s) z_max) else s
  { s with pbc := resolvePbc pbc }

/-- Example raw slab (three atoms, highest at z = 3). -/
def slabA : Slab :=
  { positions := [(0, 0, 0), (1/2, 1/2, 3/2), (0, 1, 3)]
    cell := ((2, 0, 0), (0, 2, 0), (0, 0, 4))
    pbc := (true, true, true) }

/-- Example generator family: every name produces `slabA`, whatever
vacuum is requested. -/
def gensA : String → Option ℚ → Slab := fun _ _ => slabA

/-- Unfolding equation for `get_structure` at an integer frame. -/
theorem get_structure_int_eq [ToString κ] (p : Producer α κ) (i : Int)
    (w : Bool) :
    get_structure p (Frame.int i) w none =
      (let n : Int := p.numberOfStructures
       let norm : Int := if i < 0 then i + n else i
       if 0 ≤ norm ∧ norm < n then
         Except.ok (p.getStructureImpl norm.toNat w)
       else
         Except.error (PyErr.indexError (idxErrMsg norm n))) := rfl

/-- An in-range natural frame dispatches straight to the per-frame
computation. -/
theorem get_structure_nat [ToString κ] (p : Producer α κ) (k : Nat) (w : Bool)
    (hk : k < p.numberOfStructures) :
    get_structure p (Frame.int k) w none =
      Except.ok (p.getStructureImpl k w) := by
  rw [get_structure_int_eq]
  simp only []
  rw [if_neg (by omega : ¬ ((k : Int) < 0))]
  rw [if_pos (show (0:Int) ≤ (k:Int) ∧
    (k:Int) < (p.numberOfStructures:Int) by omega)]
  simp

example : get_structure pTwo (Frame.int 1) true none = Except.ok 1 := rfl
example : get_structure pTwo (Frame.int (-1)) true none = Except.ok 1 := rfl
example : get_structure pTwo (Frame.int 2) true none =
    Except.error (PyErr.indexError
      "argument frame 2 out of range [-2, 2).") := rfl

/-- C1: a valid non-negative frame `i` and its negative alias `i - N`
return the same structure: the negative frame is normalized by adding
`N = number_of_structures()` before dispatching to `_get_structure`. -/
theorem get_structure_neg_alias [ToString κ] (p : Producer α κ) (i : Int)
    (w : Bool) (h0 : 0 ≤ i) (hN : i < (p.numberOfStructures : Int)) :
    get_structure p (Frame.int i) w none =
      get_structure p (Frame.int (i - p.numberOfStructures)) w none := by
  rw [get_structure_int_eq, get_structure_int_eq]
  simp only []
  rw [if_neg (by omega : ¬ (i < 0))]
  rw [if_pos (by omega : i - (p.numberOfStructures:Int) < 0)]
  rw [(by ring :
    i - (p.numberOfStructures:Int) + (p.numberOfStructures:Int) = i)]

/-- C1 witness: producer with two structures, frame 1 versus frame -1. -/
theorem get_structure_neg_alias_witness :
    (0:Int) ≤ 1 ∧ (1:Int) < (pTwo.numberOfStructures : Int) ∧
    get_structure pTwo (Frame.int 1) true none =
      get_structure pTwo (Frame.int (1 - pTwo.numberOfStructures)) true none :=
  ⟨by decide, by decide,
    get_structure_neg_alias pTwo 1 true (by decide) (by decide)⟩

/-- C2 counterexample: with three structures, the requested frame -4 is
rejected, but the IndexError message names the normalized frame -1, not
the requested frame -4, so "the error message includes the requested
frame" fails. -/
theorem get_structure_msg_counterexample :
    get_structure pThree (Frame.int (-4)) true none =
      Except.error (PyErr.indexError
        "argument frame -1 out of range [-3, 3).") ∧
    strHasSub "argument frame -1 out of range [-3, 3)." "-4" = false :=
  ⟨rfl, by decide⟩

/-- C2 (amended): `get_structure` raises the IndexError exactly when the
frame after negative-index normalization falls outside `[0, N)`; the
message names the *normalized* frame and the range `[-N, N)`.  For
`N = 3`: frames 3 and -4 raise, frame -1 succeeds and equals frame 2. -/
theorem get_structure_bounds [ToString κ] (p : Producer α κ) (i : Int)
    (w : Bool) :
    (let n : Int := p.numberOfStructures
     let norm : Int := if i < 0 then i + n else i
     if 0 ≤ norm ∧ norm < n then
       get_structure p (Frame.int i) w none =
         Except.ok (p.getStructureImpl norm.toNat w)
     else
       get_structure p (Frame.int i) w none =
         Except.error (PyErr.indexError (idxErrMsg norm n))) ∧
    (p.numberOfStructures = 3 →
      get_structure p (Frame.int 3) w none =
        Except.error (PyErr.indexError (idxErrMsg 3 3)) ∧
      get_structure p (Frame.int (-4)) w none =
        Except.error (PyErr.indexError (idxErrMsg (-1) 3)) ∧
      get_structure p (Frame.int (-1)) w none =
        get_structure p (Frame.int 2) w none ∧
      ∃ a, get_structure p (Frame.int (-1)) w none = Except.ok a) := by
  constructor
  · simp only [get_structure_int_eq]
    split
    · split
      · rfl
      · rfl
    · split
      · rfl
      · rfl
  · intro h3
    refine ⟨?_, ?_, ?_, ?_⟩
    · rw [get_structure_int_eq]
      simp only [h3]
      rw [if_neg (by norm_num : ¬ ((3:Int) < 0))]
      rw [if_neg (by norm_num : ¬ ((0:Int) ≤ 3 ∧ (3:Int) < ((3:Nat):Int)))]
      norm_num
    · rw [get_structure_int_eq]
      simp only [h3]
      rw [if_pos (by norm_num : ((-4:Int) < 0))]
      rw [if_neg (by norm_num :
        ¬ ((0:Int) ≤ -4 + ((3:Nat):Int) ∧ (-4:Int) + ((3:Nat):Int) < ((3:Nat):Int)))]
      norm_num
    · rw [get_structure_int_eq, get_structure_int_eq]
      simp only [h3]
      rw [if_pos (by norm_num : ((-1:Int) < 0))]
      rw [if_neg (by norm_num : ¬ ((2:Int) < 0))]
      norm_num
    · refine ⟨p.getStructureImpl 2 w, ?_⟩
      rw [get_structure_int_eq]
      simp only [h3]
      rw [if_pos (by norm_num : ((-1:Int) < 0))]
      rw [if_pos (by norm_num :
        (0:Int) ≤ -1 + ((3:Nat):Int) ∧ (-1:Int) + ((3:Nat):Int) < ((3:Nat):Int))]
      norm_num
      rfl

/-- C2 witness: the amended bounds behaviour instantiated at the
three-structure producer and frame -4. -/
theorem get_structure_bounds_witness :
    pThree.numberOfStructures = 3 ∧
    get_structure pThree (Frame.int 3) true none =
      Except.error (PyErr.indexError (idxErrMsg 3 3)) :=
  ⟨rfl, ((get_structure_bounds pThree 3 true).2 rfl).1⟩

/-- C10: a non-`None` `iteration_step` replaces `frame` before
translation, normalization and the bounds check, so the call behaves
exactly as if `iteration_step` had been passed as `frame`. -/
theorem get_structure_iteration_step [ToString κ] (p : Producer α κ)
    (x y : Frame κ) (w : Bool) :
    get_structure p x w (some y) = get_structure p y w none := rfl

/-- C9: a producer with zero structures rejects every integer frame with
the IndexError, and `iter_structures` yields the empty sequence. -/
theorem get_structure_empty [ToString κ] (p : Producer α κ)
    (h : p.numberOfStructures = 0) :
    (∀ (i : Int) (w : Bool), ∃ m,
        get_structure p (Frame.int i) w none =
          Except.error (PyErr.indexError m)) ∧
    ∀ w, iter_structures p w = [] := by
  constructor
  · intro i w
    have hn : (p.numberOfStructures : Int) = 0 := by exact_mod_cast h
    rcases lt_or_le i 0 with hc | hc
    · refine ⟨idxErrMsg (i + (p.numberOfStructures:Int))
        (p.numberOfStructures:Int), ?_⟩
      rw [get_structure_int_eq]
      simp only []
      rw [if_pos hc, if_neg (by omega : ¬ ((0:Int) ≤ i + (p.numberOfStructures:Int) ∧
        i + (p.numberOfStructures:Int) < (p.numberOfStructures:Int)))]
    · refine ⟨idxErrMsg i (p.numberOfStructures:Int), ?_⟩
      rw [get_structure_int_eq]
      simp only []
      rw [if_neg (not_lt.mpr hc), if_neg (by omega : ¬ ((0:Int) ≤ i ∧
        i < (p.numberOfStructures:Int)))]
  · intro w
    simp [iter_structures, h]

/-- C9 witness: the empty producer at the default frame -1. -/
theorem get_structure_empty_witness :
    pZero.numberOfStructures = 0 ∧
    (∃ m, get_structure pZero (Frame.int (-1)) true none =
      Except.error (PyErr.indexError m)) ∧
    iter_structures pZero true = [] :=
  ⟨rfl, (get_structure_empty pZero rfl).1 (-1) true,
    (get_structure_empty pZero rfl).2 true⟩

/-- C6: the iterated sequence has exactly `number_of_structures` elements
and its `k`-th element is the value `get_structure(k)` returns. -/
theorem iter_structures_spec [ToString κ] (p : Producer α κ) (w : Bool) :
    (iter_structures p w).length = p.numberOfStructures ∧
    ∀ k : Nat, k < p.numberOfStructures →
      (iter_structures p w)[k]? =
        (get_structure p (Frame.int k) w none).toOption := by
  constructor
  · simp [iter_structures]
  · intro k hk
    rw [get_structure_nat p k w hk]
    simp [iter_structures, List.getElem?_map, List.getElem?_range hk,
      Except.toOption]

/-- C6 witness: the two-structure producer, element 0. -/
theorem iter_structures_spec_witness :
    (iter_structures pTwo true).length = pTwo.numberOfStructures ∧
    0 < pTwo.numberOfStructures ∧
    (iter_structures pTwo true)[0]? =
      (get_structure pTwo (Frame.int 0) true none).toOption :=
  ⟨(iter_structures_spec pTwo true).1, by decide,
    (iter_structures_spec pTwo true).2 0 (by decide)⟩

/-- Unfolding equation for `get_structure` at a non-integer key: the
producer-supplied `_translate_frame` is consulted. -/
theorem get_structure_key_eq [ToString κ] (p : Producer α κ) (k : κ)
    (w : Bool) :
    get_structure p (Frame.key k) w none =
      (match p.translateFrame with
       | some t => get_structure p (Frame.int (t k)) w none
       | none => Except.error (PyErr.keyError (keyErrMsg k))) := by
  obtain ⟨N, g, tf⟩ := p
  cases tf
  · rfl
  · rfl

/-- C7: a non-integer frame key fails with the KeyError naming the key
when no `_translate_frame` is supplied; with a supplied translation `t`,
the call proceeds exactly as with the integer frame `t k`. -/
theorem get_structure_translation [ToString κ] (p : Producer α κ) (k : κ)
    (w : Bool) :
    (p.translateFrame = none →
      get_structure p (Frame.key k) w none =
        Except.error (PyErr.keyError (keyErrMsg k)) ∧
      ∃ a b, keyErrMsg k = a ++ toString k ++ b) ∧
    ∀ t, p.translateFrame = some t →
      get_structure p (Frame.key k) w none =
        get_structure p (Frame.int (t k)) w none := by
  constructor
  · intro h
    refine ⟨?_, "argument frame ",
      " is not an integer and _translate_frame() not implemented!", rfl⟩
    rw [get_structure_key_eq, h]
  · intro t h
    rw [get_structure_key_eq, h]

/-- C7 witness: a keyless producer rejects the key "x"; a producer
translating a string to its length accepts it as frame 1. -/
theorem get_structure_translation_witness :
    (pTwo.translateFrame = none ∧
      get_structure pTwo (Frame.key "x") true none =
        Except.error (PyErr.keyError (keyErrMsg "x"))) ∧
    (pTrans.translateFrame = some strLen ∧
      get_structure pTrans (Frame.key "x") true none =
        get_structure pTrans (Frame.int (strLen "x")) true none) :=
  ⟨⟨rfl, ((get_structure_translation pTwo "x" true).1 rfl).1⟩,
   ⟨rfl, (get_structure_translation pTrans "x" true).2 strLen rfl⟩⟩

/-- The seed of a max-fold bounds the fold from below. -/
theorem foldl_max_init (xs : List ℚ) : ∀ a : ℚ, a ≤ xs.foldl max a := by
  induction xs with
  | nil => intro a; exact le_refl a
  | cons x xs ih => intro a; exact le_trans (le_max_left a x) (ih (max a x))

/-- A max-fold returns its seed or a list element. -/
theorem foldl_max_mem (xs : List ℚ) :
    ∀ a : ℚ, xs.foldl max a = a ∨ xs.foldl max a ∈ xs := by
  induction xs with
  | nil => intro a; exact Or.inl rfl
  | cons x xs ih =>
    intro a
    rw [List.foldl_cons]
    rcases ih (max a x) with h | h
    · rcases max_choice a x with hm | hm
      · exact Or.inl (by rw [h, hm])
      · exact Or.inr (by rw [h, hm]; exact List.mem_cons_self _ _)
    · exact Or.inr (List.mem_cons_of_mem _ h)

/-- A max-fold bounds every list element from above. -/
theorem foldl_max_le_mem (xs : List ℚ) :
    ∀ (a x : ℚ), x ∈ xs → x ≤ xs.foldl max a := by
  induction xs with
  | nil => intro a x h; exact absurd h (List.not_mem_nil x)
  | cons y ys ih =>
    intro a x h
    rw [List.foldl_cons]
    rcases List.mem_cons.mp h with rfl | h
    · exact le_trans (le_max_right a x) (foldl_max_init ys (max a x))
    · exact ih (max a y) x h

/-- On a nonempty list, `listMax` is a member and an upper bound: it is
the maximum, as `np.max` computes it. -/
theorem listMax_spec (l : List ℚ) (h : l ≠ []) :
    listMax l ∈ l ∧ ∀ x ∈ l, x ≤ listMax l := by
  cases l with
  | nil => exact absurd rfl h
  | cons x xs =>
    constructor
    · show xs.foldl max x ∈ x :: xs
      rcases foldl_max_mem xs x with h1 | h1
      · rw [h1]; exact List.mem_cons_self _ _
      · exact List.mem_cons_of_mem _ h1
    · intro y hy
      show y ≤ xs.foldl max x
      rcases List.mem_cons.mp hy with rfl | hy
      · exact foldl_max_init xs y
      · exact foldl_max_le_mem xs x y hy

/-- C3: for a recognized surface type with `center=false`, the generator
is called without a vacuum argument (the raw slab is `gens t none`), and
the built cell's third-vector z-component is the maximum atomic
z-coordinate of that raw slab plus `vacuum`. -/
theorem surface_uncentered_vacuum (gens : String → Option ℚ → Slab)
    (t : String) (vac : ℚ) (pbc : PbcArg)
    (hrec : surfaceClassNames.contains t = true)
    (hne : (gens t none).positions ≠ []) :
    ∃ st, surface gens t vac false pbc = Except.ok st ∧
      cellZZ st = zMaxOf (gens t none) + vac ∧
      zMaxOf (gens t none) ∈ zCoords (gens t none) ∧
      ∀ z ∈ zCoords (gens t none), z ≤ zMaxOf (gens t none) := by
  have hz : zCoords (gens t none) ≠ [] := by
    simp only [zCoords, ne_eq, List.map_eq_nil_iff]
    exact hne
  refine ⟨{ setCellZZ (gens t none) (zMaxOf (gens t none) + vac)
      with pbc := resolvePbc pbc }, ?_, rfl,
    (listMax_spec _ hz).1, (listMax_spec _ hz).2⟩
  have hmem : t ∈ surfaceClassNames := by simpa using hrec
  simp [surface, hmem]

/-- C3 witness: the constant generator family at "fcc111" with vacuum 2. -/
theorem surface_uncentered_vacuum_witness :
    surfaceClassNames.contains "fcc111" = true ∧
    (gensA "fcc111" none).positions ≠ [] ∧
    ∃ st, surface gensA "fcc111" 2 false PbcArg.noneArg = Except.ok st ∧
      cellZZ st = zMaxOf (gensA "fcc111" none) + 2 ∧
      zMaxOf (gensA "fcc111" none) ∈ zCoords (gensA "fcc111" none) ∧
      ∀ z ∈ zCoords (gensA "fcc111" none), z ≤ zMaxOf (gensA "fcc111" none) :=
  ⟨by decide, by decide,
    surface_uncentered_vacuum gensA "fcc111" 2 PbcArg.noneArg
      (by decide) (by decide)⟩

/-- C4: `surface_hkl` always sets the cell's z-length to `z_max + vacuum`
(whatever `center` is); with `center=false` the positions are the raw
generator output unchanged; with `center=true` every position is shifted
by `0.5 * cell[2] - (0, 0, z_max / 2)` (with `cell[2]` the updated third
lattice vector); and `z_max` is the maximum atomic z-coordinate. -/
theorem surface_hkl_spec (raw : Slab) (vac : ℚ) (pbc : PbcArg)
    (hne : raw.positions ≠ []) :
    (∀ center : Bool,
      cellZZ (surface_hkl raw vac center pbc) = zMaxOf raw + vac) ∧
    (zMaxOf raw ∈ zCoords raw ∧ ∀ z ∈ zCoords raw, z ≤ zMaxOf raw) ∧
    (surface_hkl raw vac false pbc).positions = raw.positions ∧
    (surface_hkl raw vac true pbc).positions =
      raw.positions.map (fun p =>
        let v := centerShift (cellRow2 (setCellZZ raw (zMaxOf raw + vac)))
          (zMaxOf raw)
        (p.1 + v.1, p.2.1 + v.2.1, p.2.2 + v.2.2)) := by
  have hz : zCoords raw ≠ [] := by
    simp only [zCoords, ne_eq, List.map_eq_nil_iff]
    exact hne
  refine ⟨?_, ⟨(listMax_spec _ hz).1, (listMax_spec _ hz).2⟩, rfl, rfl⟩
  intro center
  cases center
  · rfl
  · rfl

/-- C4 witness: the concrete slab `slabA` with vacuum 2. -/
theorem surface_hkl_spec_witness :
    slabA.positions ≠ [] ∧
    (∀ center : Bool,
      cellZZ (surface_hkl slabA 2 center (PbcArg.scalar true)) =
        zMaxOf slabA + 2) ∧
    (surface_hkl slabA 2 false (PbcArg.scalar true)).positions =
      slabA.positions :=
  ⟨by decide, (surface_hkl_spec slabA 2 (PbcArg.scalar true) (by decide)).1,
    (surface_hkl_spec slabA 2 (PbcArg.scalar true) (by decide)).2.2.1⟩

/-- C5: a surface type matching no table entry raises the ValueError
whose message names the unrecognized type. -/
theorem surface_unrecognized (gens : String → Option ℚ → Slab) (t : String)
    (vac : ℚ) (center : Bool) (pbc : PbcArg)
    (h : surfaceClassNames.contains t = false) :
    surface gens t vac center pbc =
      Except.error (PyErr.valueError
        ("Surface type " ++ t ++ " not recognized.")) ∧
    ∃ a b, "Surface type " ++ t ++ " not recognized." = a ++ t ++ b := by
  constructor
  · have hmem : t ∉ surfaceClassNames := by simpa using h
    simp [surface, hmem]
  · exact ⟨"Surface type ", " not recognized.", rfl⟩

/-- C5 witness: the spec's example name "not_a_real_surface". -/
theorem surface_unrecognized_witness :
    surfaceClassNames.contains "not_a_real_surface" = false ∧
    surface gensA "not_a_real_surface" 1 false PbcArg.noneArg =
      Except.error (PyErr.valueError
        ("Surface type " ++ "not_a_real_surface" ++ " not recognized.")) :=
  ⟨by decide,
    (surface_unrecognized gensA "not_a_real_surface" 1 false PbcArg.noneArg
      (by decide)).1⟩

/-- C8: for a recognized surface type, `pbc=None` builds the same slab as
`pbc=True`, and whatever `pbc` is passed ends up verbatim (scalar values
broadcast) as the result's periodicity flags. -/
theorem surface_pbc_spec (gens : String → Option ℚ → Slab) (t : String)
    (vac : ℚ) (center : Bool)
    (hrec : surfaceClassNames.contains t = true) :
    surface gens t vac center PbcArg.noneArg =
      surface gens t vac center (PbcArg.scalar true) ∧
    ∀ pbc : PbcArg, ∃ st, surface gens t vac center pbc = Except.ok st ∧
      st.pbc = resolvePbc pbc := by
  have hmem : t ∈ surfaceClassNames := by simpa using hrec
  constructor
  · cases center <;> simp [surface, hmem, resolvePbc]
  · intro pbc
    cases center
    · refine ⟨{ setCellZZ (gens t none) (zMaxOf (gens t none) + vac)
        with pbc := resolvePbc pbc }, ?_, rfl⟩
      simp [surface, hmem]
    · refine ⟨{ gens t (some vac) with pbc := resolvePbc pbc }, ?_, rfl⟩
      simp [surface, hmem]

/-- C8 witness: "bcc100", uncentered, with a per-axis pbc triple. -/
theorem surface_pbc_spec_witness :
    surfaceClassNames.contains "bcc100" = true ∧
    surface gensA "bcc100" 1 false PbcArg.noneArg =
      surface gensA "bcc100" 1 false (PbcArg.scalar true) ∧
    ∃ st, surface gensA "bcc100" 1 false
        (PbcArg.triple (true, true, false)) = Except.ok st ∧
      st.pbc = resolvePbc (PbcArg.triple (true, true, false)) :=
  ⟨by decide, (surface_pbc_spec gensA "bcc100" 1 false (by decide)).1,
    (surface_pbc_spec gensA "bcc100" 1 false (by decide)).2
      (PbcArg.triple (true, true, false))⟩

end PyironSpec
